import Mathlib

/-!
Shallow embedding of the options-trading strategy core of this repository:
`scripts/utils/strategy_selector.py` (v6.0 single-tier rule engine) and
`scripts/utils/parameter_generator.py` (RiskManager and ParameterGenerator).

Python floats are modelled as rationals (`ℚ`), Python ints as integers (`ℤ`),
pandas DataFrames of option rows as lists of `OptionContract` preserving row
order, Python exceptions as `Except String`.  Feature dictionaries, which the
source reads with `features.get(key, default)`, are modelled as a structure of
`Option ℚ` fields whose accessors apply exactly the source's defaults.
-/

/-- A market-feature snapshot.  The Python code reads features from a plain
dict via `features.get(key, default)`; a missing key is modelled as `none`. -/
structure Features where
  iv_rank : Option ℚ := none
  adx_14 : Option ℚ := none
  trend_regime : Option ℚ := none
  rsi_14 : Option ℚ := none
  price_vs_sma_20 : Option ℚ := none

namespace Features

/-- `features.get('iv_rank', 50)` -/
def ivRank (f : Features) : ℚ := f.iv_rank.getD 50

/-- `features.get('adx_14', 20)` -/
def adx (f : Features) : ℚ := f.adx_14.getD 20

/-- `features.get('trend_regime', 2)` -/
def trendRegime (f : Features) : ℚ := f.trend_regime.getD 2

/-- `features.get('rsi_14', 50)` -/
def rsi (f : Features) : ℚ := f.rsi_14.getD 50

/-- `features.get('price_vs_sma_20', 0)` -/
def priceVsSma (f : Features) : ℚ := f.price_vs_sma_20.getD 0

/-- The snapshot in which every feature key is present, holding the value the
accessors of `f` produce (i.e. missing keys replaced by the source's
defaults). -/
def fillDefaults (f : Features) : Features :=
  ⟨some f.ivRank, some f.adx, some f.trendRegime, some f.rsi, some f.priceVsSma⟩

/-- The snapshot with every feature key absent. -/
def empty : Features := ⟨none, none, none, none, none⟩

end Features

/-- Rule 1 (Diagonal Spread) guard of `select_strategy_from_features`. -/
abbrev rule1Cond (f : Features) : Prop :=
  45 < f.ivRank ∧ f.ivRank < 60 ∧ f.trendRegime = 2 ∧
    0.005 < |f.priceVsSma| ∧ |f.priceVsSma| < 0.012 ∧ f.adx < 15

/-- Rule 2 (Iron Condor) guard. -/
abbrev rule2Cond (f : Features) : Prop :=
  52 < f.ivRank ∧ f.ivRank < 75 ∧ f.adx < 25 ∧ 45 < f.rsi ∧ f.rsi < 55

/-- Rule 3 (Iron Butterfly) guard. -/
abbrev rule3Cond (f : Features) : Prop := f.ivRank > 68 ∧ f.adx < 20

/-- Rule 4 (Long Call) guard: the nested pair of `if`s in the source both
return the label, so they are one conjunction here. -/
abbrev rule4Cond (f : Features) : Prop :=
  (f.ivRank < 46 ∧ f.adx > 21) ∧ (f.trendRegime ≥ 3 ∧ f.rsi > 54)

/-- Rule 5 (Long Put) guard: three alternative qualifying paths inside the
`iv_rank < 48` block; the `elif` chain all returns the same label, so it is a
disjunction. -/
abbrev rule5Cond (f : Features) : Prop :=
  f.ivRank < 48 ∧
    ((f.adx > 20 ∧ (f.trendRegime ≤ 1 ∨ f.rsi < 42 ∨ f.priceVsSma < -0.025)) ∨
     (f.adx ≥ 15 ∧ (f.rsi < 38 ∨ f.priceVsSma < -0.035)) ∨
     f.rsi < 33)

/-- Rule 6 (Bull Call Spread) guard. -/
abbrev rule6Cond (f : Features) : Prop :=
  56 ≤ f.ivRank ∧ f.ivRank ≤ 63 ∧ f.trendRegime ≥ 3 ∧ f.adx > 26 ∧ f.rsi > 62

/-- Rule 7 (Bear Put Spread) guard. -/
abbrev rule7Cond (f : Features) : Prop :=
  54 ≤ f.ivRank ∧ f.ivRank ≤ 65 ∧ f.trendRegime ≤ 1 ∧ f.adx > 22 ∧ f.rsi < 45

/-- Rule 8 (Long Straddle) guard (nested `if`s, one conjunction). -/
abbrev rule8Cond (f : Features) : Prop :=
  (f.ivRank < 35 ∧ 45 < f.rsi ∧ f.rsi < 58) ∧ f.adx < 17

/-- Rule 9 (Long Strangle) guard (nested `if`s, one conjunction). -/
abbrev rule9Cond (f : Features) : Prop :=
  (f.ivRank < 36 ∧ 44 < f.rsi ∧ f.rsi < 59) ∧ f.adx < 25

/-- Rule 10 (Calendar Spread) guard. -/
abbrev rule10Cond (f : Features) : Prop :=
  f.ivRank < 42 ∧ f.adx < 20 ∧ 42 < f.rsi ∧ f.rsi < 58 ∧ |f.priceVsSma| < 0.022

/-- `select_strategy_from_features` from `scripts/utils/strategy_selector.py`
(v6.0): ten ordered single-tier rules, first match wins, then the final
fallback cascade. -/
def select_strategy_from_features (f : Features) : String :=
  if rule1Cond f then "DIAGONAL_SPREAD"
  else if rule2Cond f then "IRON_CONDOR"
  else if rule3Cond f then "IRON_BUTTERFLY"
  else if rule4Cond f then "LONG_CALL"
  else if rule5Cond f then "LONG_PUT"
  else if rule6Cond f then "BULL_CALL_SPREAD"
  else if rule7Cond f then "BEAR_PUT_SPREAD"
  else if rule8Cond f then "LONG_STRADDLE"
  else if rule9Cond f then "LONG_STRANGLE"
  else if rule10Cond f then "CALENDAR_SPREAD"
  else if f.ivRank > 55 then "IRON_CONDOR"
  else if f.ivRank < 35 then
    (if f.rsi ≥ 50 then "LONG_CALL" else "LONG_PUT")
  else if f.rsi > 58 ∧ f.adx > 18 then "BULL_CALL_SPREAD"
  else if f.rsi < 42 ∧ f.adx > 18 then "BEAR_PUT_SPREAD"
  else "IRON_CONDOR"

/-- The snapshot matches none of rules 1-10 (only the final fallback cascade
applies). -/
def matchesNoRule (f : Features) : Prop :=
  ¬ rule1Cond f ∧ ¬ rule2Cond f ∧ ¬ rule3Cond f ∧ ¬ rule4Cond f ∧
  ¬ rule5Cond f ∧ ¬ rule6Cond f ∧ ¬ rule7Cond f ∧ ¬ rule8Cond f ∧
  ¬ rule9Cond f ∧ ¬ rule10Cond f

/-- The closed ten-label strategy set. -/
def strategyLabels : List String :=
  ["IRON_CONDOR", "IRON_BUTTERFLY", "LONG_CALL", "LONG_PUT",
   "BULL_CALL_SPREAD", "BEAR_PUT_SPREAD", "LONG_STRADDLE", "LONG_STRANGLE",
   "CALENDAR_SPREAD", "DIAGONAL_SPREAD"]

/-- Python `int(x)` applied to a float/rational: truncation toward zero. -/
def pyInt (q : ℚ) : ℤ := if 0 ≤ q then ⌊q⌋ else ⌈q⌉

/-- `RiskManager` from `scripts/utils/parameter_generator.py`. -/
structure RiskManager where
  account_size : ℚ := 10000
  risk_per_trade : ℚ := 0.02
  max_contracts : ℤ := 10

namespace RiskManager

/-- `self.max_risk_amount = account_size * risk_per_trade` -/
def max_risk_amount (m : RiskManager) : ℚ := m.account_size * m.risk_per_trade

/-- `RiskManager.calculate_position_size` -/
def calculate_position_size (m : RiskManager) (max_loss_per_contract : ℚ) : ℤ :=
  if max_loss_per_contract ≤ 0 then 1
  else
    let contracts := pyInt (m.max_risk_amount / max_loss_per_contract)
    max 1 (min contracts m.max_contracts)

end RiskManager

/-- The dict returned by `RiskManager.validate_trade` (the `warnings` list is
always `[]` in the source and is omitted). -/
structure TradeValidation where
  approved : Bool
  risk_reward_ratio : ℚ
  risk_percentage : ℚ
  max_risk_amount : ℚ

/-- `RiskManager.validate_trade` -/
def RiskManager.validate_trade (m : RiskManager) (max_loss max_profit : ℚ) :
    TradeValidation :=
  let risk_reward_ratio := if max_loss ≠ 0 then max_profit / |max_loss| else 0
  let risk_pct := |max_loss| / m.account_size
  { approved := decide (risk_pct ≤ m.risk_per_trade) && decide (risk_reward_ratio > 0.5)
    risk_reward_ratio := risk_reward_ratio
    risk_percentage := risk_pct
    max_risk_amount := m.max_risk_amount }

/-- One row of the option-chain DataFrame (columns used by the parameter
generator).  A chain is a `List OptionContract` preserving the DataFrame's row
order. -/
structure OptionContract where
  strike : ℚ
  type : String
  dte : ℤ
  bid : ℚ
  ask : ℚ
  delta : ℚ
deriving DecidableEq

/-- First minimiser of `f` in list order: models `DataFrame.nsmallest(1, col)`
(and Python `min(xs, key=f)`), whose ties keep the earliest row. -/
def firstArgmin {α : Type} (f : α → ℚ) : List α → Option α
  | [] => none
  | x :: xs =>
    match firstArgmin f xs with
    | none => some x
    | some y => if f x ≤ f y then some x else some y

/-- Insert into a sorted list of integers, keeping ascending order. -/
def insertSorted (x : ℤ) : List ℤ → List ℤ
  | [] => [x]
  | y :: ys => if x ≤ y then x :: y :: ys else y :: insertSorted x ys

/-- Ascending insertion sort on integers. -/
def sortInts (l : List ℤ) : List ℤ := l.foldr insertSorted []

/-- `sorted(option_chain['dte'].unique())`. -/
def available_dtes (chain : List OptionContract) : List ℤ :=
  sortInts (chain.map (fun c => c.dte)).dedup

/-- The candidate rows of `_find_strike_by_delta` / `_find_strike_by_price`:
filter by option type and DTE, falling back to the type-only filter when that
selection is empty. -/
def strikeCands (chain : List OptionContract) (option_type : String) (dte : ℤ) :
    List OptionContract :=
  if (chain.filter (fun c => c.type == option_type && c.dte == dte)).isEmpty then
    chain.filter (fun c => c.type == option_type)
  else chain.filter (fun c => c.type == option_type && c.dte == dte)

/-- The `delta_diff` column: `(filtered['delta'].abs() - abs(target_delta)).abs()`. -/
def deltaDiff (target_delta : ℚ) (c : OptionContract) : ℚ :=
  abs (|c.delta| - |target_delta|)

/-- The `price_diff` column: `(filtered['strike'] - target_price).abs()`. -/
def priceDiff (target_price : ℚ) (c : OptionContract) : ℚ :=
  |c.strike - target_price|

/-- `ParameterGenerator._find_strike_by_delta`. -/
def find_strike_by_delta (chain : List OptionContract) (target_delta : ℚ)
    (option_type : String) (dte : ℤ) : Except String ℚ :=
  match firstArgmin (deltaDiff target_delta) (strikeCands chain option_type dte) with
  | none => Except.error ("No " ++ option_type ++ " options available")
  | some best => Except.ok best.strike

/-- `ParameterGenerator._find_strike_by_price`. -/
def find_strike_by_price (chain : List OptionContract) (target_price : ℚ)
    (option_type : String) (dte : ℤ) : Except String ℚ :=
  match firstArgmin (priceDiff target_price) (strikeCands chain option_type dte) with
  | none => Except.error ("No " ++ option_type ++ " options available")
  | some best => Except.ok best.strike

/-- The `ValueError` message of `_get_option_cost` / `_get_option_bid`. -/
def optionNotFound (option_type : String) (strike : ℚ) (dte : ℤ) : String :=
  "Option not found: " ++ option_type ++ " $" ++ toString strike ++ " " ++
    toString dte ++ "DTE"

/-- `ParameterGenerator._get_option_cost` (ask of the first matching row). -/
def get_option_cost (chain : List OptionContract) (strike : ℚ)
    (option_type : String) (dte : ℤ) : Except String ℚ :=
  match chain.filter
      (fun c => c.strike == strike && c.type == option_type && c.dte == dte) with
  | [] => Except.error (optionNotFound option_type strike dte)
  | c :: _ => Except.ok c.ask

/-- `ParameterGenerator._get_option_bid` (bid of the first matching row). -/
def get_option_bid (chain : List OptionContract) (strike : ℚ)
    (option_type : String) (dte : ℤ) : Except String ℚ :=
  match chain.filter
      (fun c => c.strike == strike && c.type == option_type && c.dte == dte) with
  | [] => Except.error (optionNotFound option_type strike dte)
  | c :: _ => Except.ok c.bid

/-- `ParameterGenerator._classify_trend_strength`. -/
def classify_trend_strength (f : Features) : String :=
  if f.adx > 30 ∧ ((f.rsi > 65 ∧ f.trendRegime ≥ 4) ∨ (f.rsi < 35 ∧ f.trendRegime ≤ 0))
  then "VERY_STRONG"
  else if f.adx > 25 ∧ ((f.rsi > 60 ∧ f.trendRegime ≥ 3) ∨ (f.rsi < 40 ∧ f.trendRegime ≤ 1))
  then "STRONG"
  else if f.adx > 20 then "MODERATE"
  else "WEAK"

/-- `ParameterGenerator._select_optimal_dte`: strategy-specific target DTE,
snapped to the nearest available DTE (Python `min` raises on an empty chain). -/
def select_optimal_dte (chain : List OptionContract) (strategy : String)
    (iv_rank : ℚ) (trend_strength : String) : Except String ℤ :=
  let target : ℤ :=
    if strategy = "IRON_CONDOR" ∨ strategy = "IRON_BUTTERFLY" then
      if iv_rank > 70 then 7 else if iv_rank > 50 then 14 else 21
    else if strategy = "LONG_CALL" ∨ strategy = "LONG_PUT" then
      if iv_rank < 30 ∧ trend_strength = "VERY_STRONG" then 45
      else if iv_rank < 40 then 30 else 21
    else if strategy = "BULL_CALL_SPREAD" ∨ strategy = "BEAR_PUT_SPREAD" then
      if trend_strength = "VERY_STRONG" then 30 else 21
    else 30
  match firstArgmin (fun (d : ℤ) => |(d : ℚ) - (target : ℚ)|) (available_dtes chain) with
  | none => Except.error "min() arg is an empty sequence"
  | some d => Except.ok d

/-- The dict returned by `_generate_long_call` (the constant string fields
`strategy`, `action`, `option_type`, `max_profit` are omitted). -/
structure LongCallResult where
  strike : ℚ
  dte : ℤ
  contracts : ℤ
  cost_per_contract : ℚ
  total_cost : ℚ
  max_loss : ℚ
  breakeven : ℚ
  target_delta : ℚ
  iv_rank : ℚ
  trend_strength : String

/-- `ParameterGenerator._generate_long_call`. -/
def generate_long_call (rm : RiskManager) (chain : List OptionContract)
    (features : Features) (_current_price : ℚ) : Except String LongCallResult :=
  let iv_rank := features.ivRank
  let trend_strength := classify_trend_strength features
  match select_optimal_dte chain "LONG_CALL" iv_rank trend_strength with
  | Except.error e => Except.error e
  | Except.ok dte =>
    let target_delta : ℚ := if iv_rank < 30 then 0.50 else if iv_rank < 40 then 0.40 else 0.30
    match find_strike_by_delta chain target_delta "call" dte with
    | Except.error e => Except.error e
    | Except.ok strike =>
      match get_option_cost chain strike "call" dte with
      | Except.error e => Except.error e
      | Except.ok cost =>
        let max_loss_per_contract := cost * 100
        let contracts := rm.calculate_position_size max_loss_per_contract
        let total_cost := cost * 100 * (contracts : ℚ)
        Except.ok
          { strike := strike
            dte := dte
            contracts := contracts
            cost_per_contract := cost * 100
            total_cost := total_cost
            max_loss := total_cost
            breakeven := strike + cost
            target_delta := target_delta
            iv_rank := iv_rank
            trend_strength := trend_strength }

/-- The dict returned by `_generate_bull_call_spread` (constant `strategy`
field omitted). -/
structure BullCallSpreadResult where
  long_strike : ℚ
  short_strike : ℚ
  dte : ℤ
  contracts : ℤ
  net_debit : ℚ
  total_debit : ℚ
  max_profit : ℚ
  total_max_profit : ℚ
  max_loss : ℚ
  total_max_loss : ℚ
  breakeven : ℚ
  spread_width : ℚ
  risk_reward_ratio : ℚ
  iv_rank : ℚ

/-- `ParameterGenerator._generate_bull_call_spread`. -/
def generate_bull_call_spread (rm : RiskManager) (chain : List OptionContract)
    (features : Features) (_current_price : ℚ) :
    Except String BullCallSpreadResult :=
  let iv_rank := features.ivRank
  let trend_strength := classify_trend_strength features
  match select_optimal_dte chain "BULL_CALL_SPREAD" iv_rank trend_strength with
  | Except.error e => Except.error e
  | Except.ok dte =>
    let long_delta : ℚ := if iv_rank < 50 then 0.50 else 0.60
    let short_delta : ℚ := if iv_rank < 50 then 0.30 else 0.25
    match find_strike_by_delta chain long_delta "call" dte with
    | Except.error e => Except.error e
    | Except.ok long_strike =>
      match find_strike_by_delta chain short_delta "call" dte with
      | Except.error e => Except.error e
      | Except.ok short_strike =>
        match get_option_cost chain long_strike "call" dte with
        | Except.error e => Except.error e
        | Except.ok long_cost =>
          match get_option_bid chain short_strike "call" dte with
          | Except.error e => Except.error e
          | Except.ok short_credit =>
            let net_debit := (long_cost - short_credit) * 100
            let spread_width := (short_strike - long_strike) * 100
            let max_profit := spread_width - net_debit
            let contracts := rm.calculate_position_size net_debit
            let total_debit := net_debit * (contracts : ℚ)
            let total_max_profit := max_profit * (contracts : ℚ)
            Except.ok
              { long_strike := long_strike
                short_strike := short_strike
                dte := dte
                contracts := contracts
                net_debit := net_debit
                total_debit := total_debit
                max_profit := max_profit
                total_max_profit := total_max_profit
                max_loss := net_debit
                total_max_loss := total_debit
                breakeven := long_strike + net_debit / 100
                spread_width := spread_width / 100
                risk_reward_ratio := if net_debit > 0 then max_profit / net_debit else 0
                iv_rank := iv_rank }

/-- The option type chosen by `_generate_calendar_spread`
(`'call' if rsi > 50 else 'put'`). -/
def calendarType (features : Features) : String :=
  if features.rsi > 50 then "call" else "put"

/-- The option type chosen by `_generate_diagonal_spread`
(`'call' if rsi > 55 else 'put'`). -/
def diagonalType (features : Features) : String :=
  if features.rsi > 55 then "call" else "put"

/-- `near_dte` of the calendar/diagonal builders:
`min(available_dtes, key=lambda x: abs(x - 21))`. -/
def nearDte (chain : List OptionContract) : Option ℤ :=
  firstArgmin (fun (d : ℤ) => |(d : ℚ) - 21|) (available_dtes chain)

/-- `far_dte` of the calendar/diagonal builders:
`min([d for d in available_dtes if d > near_dte + 14], key=lambda x: abs(x - 45),
default=near_dte + 30)`. -/
def farDte (chain : List OptionContract) (near_dte : ℤ) : ℤ :=
  (firstArgmin (fun (d : ℤ) => |(d : ℚ) - 45|)
      ((available_dtes chain).filter (fun d => near_dte + 14 < d))).getD
    (near_dte + 30)

/-- The dict returned by `_generate_calendar_spread` (constant string fields
omitted). -/
structure CalendarSpreadResult where
  strike : ℚ
  option_type : String
  near_dte : ℤ
  far_dte : ℤ
  contracts : ℤ
  net_debit : ℚ
  total_debit : ℚ
  max_loss : ℚ
  total_max_loss : ℚ
  iv_rank : ℚ

/-- `ParameterGenerator._generate_calendar_spread`. -/
def generate_calendar_spread (rm : RiskManager) (chain : List OptionContract)
    (features : Features) (_current_price : ℚ) :
    Except String CalendarSpreadResult :=
  let iv_rank := features.ivRank
  match nearDte chain with
  | none => Except.error "min() arg is an empty sequence"
  | some near_dte =>
    let far_dte := farDte chain near_dte
    match find_strike_by_delta chain 0.50 "call" near_dte with
    | Except.error e => Except.error e
    | Except.ok atm_strike =>
      let option_type := calendarType features
      match get_option_bid chain atm_strike option_type near_dte with
      | Except.error e => Except.error e
      | Except.ok near_credit =>
        match get_option_cost chain atm_strike option_type far_dte with
        | Except.error e => Except.error e
        | Except.ok far_cost =>
          let net_debit := (far_cost - near_credit) * 100
          let contracts := rm.calculate_position_size net_debit
          let total_debit := net_debit * (contracts : ℚ)
          Except.ok
            { strike := atm_strike
              option_type := option_type
              near_dte := near_dte
              far_dte := far_dte
              contracts := contracts
              net_debit := net_debit
              total_debit := total_debit
              max_loss := net_debit
              total_max_loss := total_debit
              iv_rank := iv_rank }

/-- The dict returned by `_generate_diagonal_spread` (constant string fields
omitted). -/
structure DiagonalSpreadResult where
  option_type : String
  long_strike : ℚ
  short_strike : ℚ
  near_dte : ℤ
  far_dte : ℤ
  contracts : ℤ
  net_debit : ℚ
  total_debit : ℚ
  max_loss : ℚ
  total_max_loss : ℚ
  iv_rank : ℚ

/-- `ParameterGenerator._generate_diagonal_spread`. -/
def generate_diagonal_spread (rm : RiskManager) (chain : List OptionContract)
    (features : Features) (_current_price : ℚ) :
    Except String DiagonalSpreadResult :=
  let iv_rank := features.ivRank
  let rsi := features.rsi
  match nearDte chain with
  | none => Except.error "min() arg is an empty sequence"
  | some near_dte =>
    let far_dte := farDte chain near_dte
    let option_type := diagonalType features
    let long_delta : ℚ := if rsi > 55 then 0.50 else -0.50
    let short_delta : ℚ := if rsi > 55 then 0.30 else -0.30
    match find_strike_by_delta chain long_delta option_type far_dte with
    | Except.error e => Except.error e
    | Except.ok long_strike =>
      match find_strike_by_delta chain short_delta option_type near_dte with
      | Except.error e => Except.error e
      | Except.ok short_strike =>
        match get_option_cost chain long_strike option_type far_dte with
        | Except.error e => Except.error e
        | Except.ok long_cost =>
          match get_option_bid chain short_strike option_type near_dte with
          | Except.error e => Except.error e
          | Except.ok short_credit =>
            let net_debit := (long_cost - short_credit) * 100
            let contracts := rm.calculate_position_size net_debit
            let total_debit := net_debit * (contracts : ℚ)
            Except.ok
              { option_type := option_type
                long_strike := long_strike
                short_strike := short_strike
                near_dte := near_dte
                far_dte := far_dte
                contracts := contracts
                net_debit := net_debit
                total_debit := total_debit
                max_loss := net_debit
                total_max_loss := total_debit
                iv_rank := iv_rank }

/-! Concrete inputs used by the witness theorems. -/

/-- `RiskManager()` with its default configuration
(`account_size=10000, risk_per_trade=0.02, max_contracts=10`). -/
def rm0 : RiskManager := {}

/-- A two-row call chain at 21 DTE (strikes 100 and 110). -/
def chainBCS : List OptionContract :=
  [⟨100, "call", 21, 4.8, 5, 0.50⟩, ⟨110, "call", 21, 1, 1.2, 0.30⟩]

/-- The bull-call-spread output on `chainBCS` with default features. -/
def bcsR0 : BullCallSpreadResult :=
  ⟨100, 110, 21, 1, 400, 400, 600, 600, 400, 400, 104, 10, 3/2, 50⟩

/-- A one-row call chain at 21 DTE. -/
def chainLC : List OptionContract := [⟨100, "call", 21, 1.8, 2, 0.30⟩]

/-- The long-call output on `chainLC` with every feature key absent. -/
def lcR0 : LongCallResult := ⟨100, 21, 1, 200, 200, 200, 102, 0.30, 50, "WEAK"⟩

/-- A chain whose distinct DTEs (21 and 28) all lie within `near_dte + 14`. -/
def chainCal : List OptionContract :=
  [⟨100, "call", 21, 2.9, 3, 0.50⟩, ⟨100, "put", 21, 2.4, 2.5, -0.50⟩,
   ⟨100, "call", 28, 3.4, 3.5, 0.48⟩]

/-! Helper lemmas. -/

theorem firstArgmin_eq_none {α : Type} (f : α → ℚ) (l : List α) :
    firstArgmin f l = none ↔ l = [] := by
  cases l with
  | nil => simp [firstArgmin]
  | cons x xs =>
    simp only [firstArgmin, List.cons_ne_nil, iff_false]
    cases firstArgmin f xs with
    | none => simp
    | some y =>
      dsimp only []
      split <;> simp

/-- The result of `firstArgmin` is a minimiser, and every strictly earlier
element of the list is strictly larger. -/
theorem firstArgmin_spec {α : Type} (f : α → ℚ) (l : List α) (a : α)
    (h : firstArgmin f l = some a) :
    (∀ b ∈ l, f a ≤ f b) ∧
      ∃ l₁ l₂, l = l₁ ++ a :: l₂ ∧ ∀ b ∈ l₁, f a < f b := by
  induction l generalizing a with
  | nil => simp [firstArgmin] at h
  | cons x xs ih =>
    simp only [firstArgmin] at h
    cases hxs : firstArgmin f xs with
    | none =>
      rw [hxs] at h
      dsimp only [] at h
      obtain rfl : x = a := by simpa using h
      obtain rfl : xs = [] := (firstArgmin_eq_none f xs).mp hxs
      exact ⟨by simp, [], [], by simp⟩
    | some y =>
      rw [hxs] at h
      dsimp only [] at h
      obtain ⟨hmin, l₁, l₂, hsplit, hfirst⟩ := ih y hxs
      by_cases hxy : f x ≤ f y
      · rw [if_pos hxy] at h
        obtain rfl : x = a := by simpa using h
        refine ⟨?_, [], xs, by simp⟩
        intro b hb
        rcases List.mem_cons.mp hb with rfl | hb
        · exact le_refl _
        · exact le_trans hxy (hmin b hb)
      · rw [if_neg hxy] at h
        obtain rfl : y = a := by simpa using h
        push_neg at hxy
        refine ⟨?_, x :: l₁, l₂, by simp [hsplit], ?_⟩
        · intro b hb
          rcases List.mem_cons.mp hb with rfl | hb
          · exact le_of_lt hxy
          · exact hmin b hb
        · intro b hb
          rcases List.mem_cons.mp hb with rfl | hb
          · exact hxy
          · exact hfirst b hb

theorem firstArgmin_mem {α : Type} {f : α → ℚ} {l : List α} {a : α}
    (h : firstArgmin f l = some a) : a ∈ l := by
  obtain ⟨-, l₁, l₂, rfl, -⟩ := firstArgmin_spec f l a h
  simp

theorem mem_insertSorted {x a : ℤ} {l : List ℤ} :
    a ∈ insertSorted x l ↔ a = x ∨ a ∈ l := by
  induction l with
  | nil => simp [insertSorted]
  | cons y ys ih =>
    simp only [insertSorted]
    split
    · simp
    · simp only [List.mem_cons, ih]
      tauto

theorem mem_sortInts {a : ℤ} {l : List ℤ} : a ∈ sortInts l ↔ a ∈ l := by
  induction l with
  | nil => simp [sortInts]
  | cons x xs ih =>
    show a ∈ insertSorted x (sortInts xs) ↔ _
    rw [mem_insertSorted, ih]
    simp

theorem mem_available_dtes {chain : List OptionContract} {d : ℤ} :
    d ∈ available_dtes chain ↔ d ∈ chain.map (fun c => c.dte) := by
  rw [available_dtes, mem_sortInts, List.mem_dedup]

/-! Claim theorems. -/

/-- Claim C1: for every RiskManager with positive account size, risk fraction
in (0,1] and a positive integer contract cap, `calculate_position_size`
returns 1 on a non-positive per-contract loss and otherwise the floor of
`account_size * risk_per_trade / max_loss_per_contract` clamped to
`[1, max_contracts]`; in all cases the result lies in `[1, max_contracts]`. -/
theorem calculate_position_size_spec (m : RiskManager)
    (hacct : 0 < m.account_size) (hrisk : 0 < m.risk_per_trade)
    (hrisk1 : m.risk_per_trade ≤ 1) (hcap : 1 ≤ m.max_contracts) (x : ℚ) :
    (x ≤ 0 → m.calculate_position_size x = 1) ∧
    (0 < x → m.calculate_position_size x =
      max 1 (min ⌊m.account_size * m.risk_per_trade / x⌋ m.max_contracts)) ∧
    1 ≤ m.calculate_position_size x ∧
    m.calculate_position_size x ≤ m.max_contracts := by
  by_cases hx : x ≤ 0
  · refine ⟨fun _ => ?_, fun h0 => absurd h0 (not_lt.mpr hx), ?_, ?_⟩ <;>
      simp [RiskManager.calculate_position_size, hx, hcap]
  · have hxpos : 0 < x := lt_of_not_le hx
    have hq : 0 ≤ m.account_size * m.risk_per_trade / x :=
      le_of_lt (div_pos (mul_pos hacct hrisk) hxpos)
    have heval : m.calculate_position_size x =
        max 1 (min ⌊m.account_size * m.risk_per_trade / x⌋ m.max_contracts) := by
      rw [RiskManager.calculate_position_size, if_neg hx]
      simp only [pyInt, RiskManager.max_risk_amount, if_pos hq]
    refine ⟨fun hc => absurd hxpos (not_lt.mpr hc), fun _ => heval, ?_, ?_⟩
    · rw [heval]; exact le_max_left _ _
    · rw [heval]; exact max_le hcap (min_le_right _ _)

/-- Witness for C1: the spec's Scenario 3, `RiskManager()` (account 10000,
risk 2%, cap 10) sizing a 150-per-contract loss to
`max 1 (min ⌊200/150⌋ 10) = 1` contract. -/
theorem calculate_position_size_spec_witness :
    (0 : ℚ) < 150 ∧
    rm0.calculate_position_size 150 =
      max 1 (min ⌊rm0.account_size * rm0.risk_per_trade / 150⌋ rm0.max_contracts) ∧
    rm0.calculate_position_size 150 = 1 := by
  have h := calculate_position_size_spec rm0 (by norm_num [rm0])
    (by norm_num [rm0]) (by norm_num [rm0]) (by norm_num [rm0]) 150
  refine ⟨by norm_num, h.2.1 (by norm_num), ?_⟩
  rw [h.2.1 (by norm_num)]
  norm_num [rm0]

/-- Claim C2: `validate_trade` reports
`risk_reward_ratio = max_profit / |max_loss|` (0 when `max_loss = 0`),
`risk_percentage = |max_loss| / account_size`, and approves exactly when the
risk percentage is within the budget and the ratio exceeds 0.5.  (The
embedding is a pure function of `(m, max_loss, max_profit)`: no state is
mutated.) -/
theorem validate_trade_spec (m : RiskManager) (hacct : 0 < m.account_size)
    (max_loss max_profit : ℚ) :
    ((m.validate_trade max_loss max_profit).risk_reward_ratio =
      if max_loss = 0 then 0 else max_profit / |max_loss|) ∧
    (m.validate_trade max_loss max_profit).risk_percentage =
      |max_loss| / m.account_size ∧
    ((m.validate_trade max_loss max_profit).approved = true ↔
      ((m.validate_trade max_loss max_profit).risk_percentage ≤ m.risk_per_trade ∧
       (m.validate_trade max_loss max_profit).risk_reward_ratio > 0.5)) := by
  refine ⟨?_, rfl, ?_⟩
  · by_cases h : max_loss = 0 <;>
      simp [RiskManager.validate_trade, h]
  · simp [RiskManager.validate_trade]

/-- Witness for C2: the spec's Scenario 4 on the default `RiskManager()`:
`validate_trade(-300, 100)` yields ratio `1/3` and is rejected. -/
theorem validate_trade_spec_witness :
    (0 : ℚ) < rm0.account_size ∧
    ((rm0.validate_trade (-300) 100).risk_reward_ratio =
      if (-300 : ℚ) = 0 then 0 else 100 / |(-300 : ℚ)|) ∧
    (rm0.validate_trade (-300) 100).risk_reward_ratio = 1/3 ∧
    (rm0.validate_trade (-300) 100).approved = false := by
  have h := validate_trade_spec rm0 (by norm_num [rm0]) (-300) 100
  refine ⟨by norm_num [rm0], h.1, ?_, ?_⟩
  · rw [h.1]; norm_num
  · have hratio : (rm0.validate_trade (-300) 100).risk_reward_ratio = 1/3 := by
      rw [h.1]; norm_num
    rcases Bool.eq_false_or_eq_true ((rm0.validate_trade (-300) 100).approved)
      with ht | hf
    swap
    · exact hf
    · exfalso
      have := (h.2.2).mp ht
      rw [hratio] at this
      norm_num at this

/-- Claim C9: a trade with `max_loss = 0` is never approved, because its
risk/reward ratio is defined to be 0 and `0 > 0.5` fails, even though its
risk percentage 0 passes the risk budget. -/
theorem validate_trade_zero_loss_never_approved (m : RiskManager)
    (max_profit : ℚ) :
    (m.validate_trade 0 max_profit).approved = false ∧
    (m.validate_trade 0 max_profit).risk_reward_ratio = 0 := by
  constructor <;> norm_num [RiskManager.validate_trade]

/-- Claim C5: the rule engine returns IRON_CONDOR for every snapshot with
`iv_rank=60, adx_14=15, rsi_14=50` (any trend regime and price-vs-SMA), and
LONG_CALL for every snapshot with `iv_rank=30, adx_14=25, trend_regime=4,
rsi_14=60` (any price-vs-SMA). -/
theorem rule_engine_scenarios :
    (∀ tr pvs : Option ℚ,
      select_strategy_from_features ⟨some 60, some 15, tr, some 50, pvs⟩ =
        "IRON_CONDOR") ∧
    (∀ pvs : Option ℚ,
      select_strategy_from_features ⟨some 30, some 25, some 4, some 60, pvs⟩ =
        "LONG_CALL") := by
  constructor
  · intro tr pvs
    norm_num [select_strategy_from_features, rule1Cond, rule2Cond, rule3Cond,
      rule4Cond, rule5Cond, rule6Cond, rule7Cond, rule8Cond, rule9Cond,
      rule10Cond, Features.ivRank, Features.adx, Features.trendRegime,
      Features.rsi, Features.priceVsSma]
  · intro pvs
    norm_num [select_strategy_from_features, rule1Cond, rule2Cond, rule3Cond,
      rule4Cond, rule5Cond, rule6Cond, rule7Cond, rule8Cond, rule9Cond,
      rule10Cond, Features.ivRank, Features.adx, Features.trendRegime,
      Features.rsi, Features.priceVsSma]

/-- Any two-branch conditional over labels from the closed set stays in the
closed set. -/
theorem mem_ite_strategyLabels {c : Prop} [Decidable c] {a b : String}
    (ha : a ∈ strategyLabels) (hb : b ∈ strategyLabels) :
    (if c then a else b) ∈ strategyLabels := by
  split
  · exact ha
  · exact hb

/-- Claim C4: the rule engine is total — every snapshot gets one of the ten
labels — and on any snapshot matching none of rules 1-10 it returns exactly
the fallback cascade: IRON_CONDOR when `iv_rank > 55`; else for `iv_rank < 35`
LONG_CALL when `rsi ≥ 50` and LONG_PUT otherwise; else (medium IV)
BULL_CALL_SPREAD when `rsi > 58 ∧ adx > 18`, BEAR_PUT_SPREAD when
`rsi < 42 ∧ adx > 18`, else IRON_CONDOR. -/
theorem rule_engine_fallback_total (f : Features) :
    select_strategy_from_features f ∈ strategyLabels ∧
    (matchesNoRule f →
      select_strategy_from_features f =
        (if f.ivRank > 55 then "IRON_CONDOR"
         else if f.ivRank < 35 then
           (if f.rsi ≥ 50 then "LONG_CALL" else "LONG_PUT")
         else if f.rsi > 58 ∧ f.adx > 18 then "BULL_CALL_SPREAD"
         else if f.rsi < 42 ∧ f.adx > 18 then "BEAR_PUT_SPREAD"
         else "IRON_CONDOR")) := by
  constructor
  · unfold select_strategy_from_features
    exact mem_ite_strategyLabels (by decide) (mem_ite_strategyLabels (by decide)
      (mem_ite_strategyLabels (by decide) (mem_ite_strategyLabels (by decide)
      (mem_ite_strategyLabels (by decide) (mem_ite_strategyLabels (by decide)
      (mem_ite_strategyLabels (by decide) (mem_ite_strategyLabels (by decide)
      (mem_ite_strategyLabels (by decide) (mem_ite_strategyLabels (by decide)
      (mem_ite_strategyLabels (by decide)
        (mem_ite_strategyLabels (mem_ite_strategyLabels (by decide) (by decide))
          (mem_ite_strategyLabels (by decide)
            (mem_ite_strategyLabels (by decide) (by decide))))))))))))))
  · rintro ⟨h1, h2, h3, h4, h5, h6, h7, h8, h9, h10⟩
    unfold select_strategy_from_features
    rw [if_neg h1, if_neg h2, if_neg h3, if_neg h4, if_neg h5, if_neg h6,
      if_neg h7, if_neg h8, if_neg h9, if_neg h10]

/-- Witness for C4: the all-defaults snapshot (iv 50, adx 20, regime 2,
rsi 50, price-vs-SMA 0) matches no rule and falls through to the final
IRON_CONDOR default. -/
theorem rule_engine_fallback_total_witness :
    matchesNoRule Features.empty ∧
    select_strategy_from_features Features.empty ∈ strategyLabels ∧
    select_strategy_from_features Features.empty = "IRON_CONDOR" := by
  have hm : matchesNoRule Features.empty := by
    norm_num [matchesNoRule, rule1Cond, rule2Cond, rule3Cond, rule4Cond,
      rule5Cond, rule6Cond, rule7Cond, rule8Cond, rule9Cond, rule10Cond,
      Features.ivRank, Features.adx, Features.trendRegime, Features.rsi,
      Features.priceVsSma, Features.empty]
  have h := rule_engine_fallback_total Features.empty
  refine ⟨hm, h.1, (h.2 hm).trans ?_⟩
  norm_num [Features.ivRank, Features.adx, Features.rsi, Features.empty]

/-- Counterexample to claim C3: on the snapshot with every required feature
key absent, the strategy selector silently computes the label IRON_CONDOR
(from the defaults iv 50, adx 20, regime 2, rsi 50, price-vs-SMA 0), and the
long-call parameter builder silently generates a trade — neither fails with a
missing-feature error. -/
theorem missing_features_counterexample :
    select_strategy_from_features Features.empty = "IRON_CONDOR" ∧
    generate_long_call rm0 chainLC Features.empty 100 = Except.ok lcR0 := by
  constructor
  · norm_num [select_strategy_from_features, rule1Cond, rule2Cond, rule3Cond,
      rule4Cond, rule5Cond, rule6Cond, rule7Cond, rule8Cond, rule9Cond,
      rule10Cond, Features.ivRank, Features.adx, Features.trendRegime,
      Features.rsi, Features.priceVsSma, Features.empty]
  · norm_num [generate_long_call, rm0, chainLC, lcR0, Features.ivRank,
      Features.adx, Features.trendRegime, Features.rsi, Features.priceVsSma,
      Features.empty, classify_trend_strength, select_optimal_dte,
      available_dtes, sortInts, insertSorted, firstArgmin,
      find_strike_by_delta, strikeCands, deltaDiff, get_option_cost,
      RiskManager.calculate_position_size, RiskManager.max_risk_amount, pyInt]

/-- Claim C3 as amended: when a required feature key is absent the code does
not fail — it substitutes the fixed defaults (`iv_rank→50`, `adx_14→20`,
`trend_regime→2`, `rsi_14→50`, `price_vs_sma_20→0`) and proceeds: selection
and long-call generation on any snapshot coincide with their behaviour on the
snapshot whose missing keys are filled with those defaults. -/
theorem missing_features_default_substitution (f : Features) (rm : RiskManager)
    (chain : List OptionContract) (current_price : ℚ) :
    select_strategy_from_features f =
      select_strategy_from_features f.fillDefaults ∧
    generate_long_call rm chain f current_price =
      generate_long_call rm chain f.fillDefaults current_price := by
  constructor <;> rfl

/-- The candidate list is empty exactly when the chain has no contract of the
requested type (the DTE filter alone being empty triggers the fallback, not
the error). -/
theorem strikeCands_eq_nil_iff (chain : List OptionContract) (ty : String)
    (dte : ℤ) :
    strikeCands chain ty dte = [] ↔
      chain.filter (fun c => c.type == ty) = [] := by
  unfold strikeCands
  split
  · exact Iff.rfl
  · rename_i h
    rw [Bool.not_eq_true, List.isEmpty_eq_false_iff_exists_mem] at h
    obtain ⟨c, hc⟩ := h
    have hmem := List.mem_filter.mp hc
    have hty : c.type == ty := by
      have h2 := hmem.2
      simp only [Bool.and_eq_true] at h2
      exact h2.1
    constructor
    · intro he
      rw [he] at hc
      simp at hc
    · intro he
      have hco : c ∈ chain.filter (fun c => c.type == ty) :=
        List.mem_filter.mpr ⟨hmem.1, hty⟩
      rw [he] at hco
      simp at hco

/-- Every member of the candidate list is a chain row of the requested type. -/
theorem strikeCands_subset (chain : List OptionContract) (ty : String)
    (dte : ℤ) (c : OptionContract) (hc : c ∈ strikeCands chain ty dte) :
    c ∈ chain ∧ c.type = ty := by
  unfold strikeCands at hc
  split at hc
  · have h := List.mem_filter.mp hc
    exact ⟨h.1, by simpa using h.2⟩
  · have h := List.mem_filter.mp hc
    refine ⟨h.1, ?_⟩
    have h2 := h.2
    simp only [Bool.and_eq_true, beq_iff_eq] at h2
    exact h2.1

/-- If the chain has some contract of the requested type, strike selection by
delta succeeds with a candidate row's strike. -/
theorem find_strike_by_delta_isOk (chain : List OptionContract)
    (target_delta : ℚ) (ty : String) (dte : ℤ)
    (h : ∃ c ∈ chain, c.type = ty) :
    ∃ best ∈ strikeCands chain ty dte,
      find_strike_by_delta chain target_delta ty dte = Except.ok best.strike := by
  have hne : strikeCands chain ty dte ≠ [] := by
    rw [Ne, strikeCands_eq_nil_iff]
    intro hnil
    obtain ⟨c, hc, hty⟩ := h
    have hco : c ∈ chain.filter (fun c => c.type == ty) :=
      List.mem_filter.mpr ⟨hc, by simp [hty]⟩
    rw [hnil] at hco
    simp at hco
  unfold find_strike_by_delta
  cases hfa : firstArgmin (deltaDiff target_delta) (strikeCands chain ty dte) with
  | none => exact absurd ((firstArgmin_eq_none _ _).mp hfa) hne
  | some best => exact ⟨best, firstArgmin_mem hfa, rfl⟩

/-- Claim C7: strike selection by delta filters to the requested type and
DTE, retries with the type-only filter when that is empty, errors exactly
when the chain has no contract of the requested type, and otherwise returns
the strike of the candidate minimising `||delta| - |target||`, ties broken by
the earliest row of the (order-preserving) candidate list. -/
theorem find_strike_by_delta_spec (chain : List OptionContract)
    (target_delta : ℚ) (ty : String) (dte : ℤ) :
    (find_strike_by_delta chain target_delta ty dte =
        Except.error ("No " ++ ty ++ " options available") ↔
      ∀ c ∈ chain, c.type ≠ ty) ∧
    ((∃ c ∈ chain, c.type = ty) →
      ∃ l₁ best l₂,
        strikeCands chain ty dte = l₁ ++ best :: l₂ ∧
        find_strike_by_delta chain target_delta ty dte = Except.ok best.strike ∧
        (∀ b ∈ strikeCands chain ty dte,
          deltaDiff target_delta best ≤ deltaDiff target_delta b) ∧
        (∀ b ∈ l₁, deltaDiff target_delta best < deltaDiff target_delta b)) := by
  constructor
  · unfold find_strike_by_delta
    cases hfa : firstArgmin (deltaDiff target_delta) (strikeCands chain ty dte) with
    | none =>
      have hnil := (firstArgmin_eq_none _ _).mp hfa
      rw [strikeCands_eq_nil_iff] at hnil
      have himp : ∀ c ∈ chain, c.type ≠ ty := by
        intro c hc hty
        have hco : c ∈ chain.filter (fun c => c.type == ty) :=
          List.mem_filter.mpr ⟨hc, by simp [hty]⟩
        rw [hnil] at hco
        simp at hco
      exact iff_of_true rfl himp
    | some best =>
      have hmem := strikeCands_subset chain ty dte best (firstArgmin_mem hfa)
      refine iff_of_false (by simp) ?_
      intro hall
      exact hall best hmem.1 hmem.2
  · intro h
    cases hfa : firstArgmin (deltaDiff target_delta) (strikeCands chain ty dte) with
    | none =>
      obtain ⟨best, hbestmem, hok⟩ :=
        find_strike_by_delta_isOk chain target_delta ty dte h
      have hne : strikeCands chain ty dte = [] := (firstArgmin_eq_none _ _).mp hfa
      rw [hne] at hbestmem
      simp at hbestmem
    | some b =>
      obtain ⟨hmin, l₁, l₂, hsplit, hfirst⟩ := firstArgmin_spec _ _ b hfa
      refine ⟨l₁, b, l₂, hsplit, ?_, hmin, hfirst⟩
      unfold find_strike_by_delta
      rw [hfa]

/-- Witness for C7: on the two-call chain, selecting by delta 0.50 at 21 DTE
succeeds with strike 100 (the first minimiser), and the characterisation of
the theorem holds there. -/
theorem find_strike_by_delta_spec_witness :
    (∃ c ∈ chainBCS, c.type = "call") ∧
    (∃ l₁ best l₂,
      strikeCands chainBCS "call" 21 = l₁ ++ best :: l₂ ∧
      find_strike_by_delta chainBCS (1/2) "call" 21 = Except.ok best.strike ∧
      (∀ b ∈ strikeCands chainBCS "call" 21,
        deltaDiff (1/2) best ≤ deltaDiff (1/2) b) ∧
      (∀ b ∈ l₁, deltaDiff (1/2) best < deltaDiff (1/2) b)) ∧
    find_strike_by_delta chainBCS (1/2) "call" 21 = Except.ok 100 := by
  have hex : ∃ c ∈ chainBCS, c.type = "call" :=
    ⟨⟨100, "call", 21, 4.8, 5, 0.50⟩, by simp [chainBCS], rfl⟩
  refine ⟨hex, (find_strike_by_delta_spec chainBCS (1/2) "call" 21).2 hex, ?_⟩
  norm_num [find_strike_by_delta, strikeCands, chainBCS, firstArgmin, deltaDiff]

/-- Claim C8: round-trip of the two strike-selection modes — when the chain
has a contract of the requested type and DTE and select-by-delta returns
strike S, select-by-price at target S over the same chain, type and DTE
returns S again. -/
theorem delta_price_roundtrip (chain : List OptionContract) (target_delta : ℚ)
    (ty : String) (dte : ℤ) (S : ℚ)
    (hne : ∃ c ∈ chain, c.type = ty ∧ c.dte = dte)
    (hS : find_strike_by_delta chain target_delta ty dte = Except.ok S) :
    find_strike_by_price chain S ty dte = Except.ok S := by
  have htyped : ¬ (chain.filter (fun c => c.type == ty && c.dte == dte)).isEmpty = true := by
    obtain ⟨c, hc, hty, hdte⟩ := hne
    have hcmem : c ∈ chain.filter (fun c => c.type == ty && c.dte == dte) :=
      List.mem_filter.mpr ⟨hc, by simp [hty, hdte]⟩
    intro he
    simp only [List.isEmpty_eq_true] at he
    rw [he] at hcmem
    simp at hcmem
  have hcands : strikeCands chain ty dte =
      chain.filter (fun c => c.type == ty && c.dte == dte) := by
    unfold strikeCands
    rw [if_neg htyped]
  unfold find_strike_by_delta at hS
  cases hfa : firstArgmin (deltaDiff target_delta) (strikeCands chain ty dte) with
  | none => rw [hfa] at hS; exact absurd hS (by simp)
  | some best =>
    rw [hfa] at hS
    have hbS : best.strike = S := by simpa using hS
    have hbest_mem : best ∈ strikeCands chain ty dte := firstArgmin_mem hfa
    unfold find_strike_by_price
    cases hpa : firstArgmin (priceDiff S) (strikeCands chain ty dte) with
    | none =>
      have hnil := (firstArgmin_eq_none _ _).mp hpa
      rw [hnil] at hbest_mem
      simp at hbest_mem
    | some c =>
      have hmin := (firstArgmin_spec _ _ c hpa).1 best hbest_mem
      have hbzero : priceDiff S best = 0 := by
        unfold priceDiff
        rw [hbS, sub_self, abs_zero]
      have hczero : priceDiff S c = 0 :=
        le_antisymm (hbzero ▸ hmin) (abs_nonneg _)
      have hcS : c.strike = S := by
        unfold priceDiff at hczero
        have := abs_eq_zero.mp hczero
        linarith
      simp [hcS]

/-- Witness for C8: on the two-call chain, select-by-delta 0.50 at 21 DTE
gives strike 100, and select-by-price at target 100 returns 100 again. -/
theorem delta_price_roundtrip_witness :
    (∃ c ∈ chainBCS, c.type = "call" ∧ c.dte = 21) ∧
    find_strike_by_delta chainBCS (1/2) "call" 21 = Except.ok 100 ∧
    find_strike_by_price chainBCS 100 "call" 21 = Except.ok 100 := by
  have hne : ∃ c ∈ chainBCS, c.type = "call" ∧ c.dte = 21 :=
    ⟨⟨100, "call", 21, 4.8, 5, 0.50⟩, by simp [chainBCS], rfl, rfl⟩
  have hS : find_strike_by_delta chainBCS (1/2) "call" 21 = Except.ok 100 := by
    norm_num [find_strike_by_delta, strikeCands, chainBCS, firstArgmin, deltaDiff]
  exact ⟨hne, hS, delta_price_roundtrip chainBCS (1/2) "call" 21 100 hne hS⟩

/-- Claim C6: every successfully built bull call spread satisfies the payoff
identities — `net_debit = (long ask − short bid) × 100` for the asks/bids the
chain reports at the returned strikes and DTE,
`max_profit = (short_strike − long_strike) × 100 − net_debit`,
`max_loss = net_debit`, and `breakeven = long_strike + net_debit / 100`. -/
theorem bull_call_spread_payoff (rm : RiskManager)
    (chain : List OptionContract) (features : Features) (current_price : ℚ)
    (r : BullCallSpreadResult)
    (h : generate_bull_call_spread rm chain features current_price =
      Except.ok r) :
    ∃ long_ask short_bid,
      get_option_cost chain r.long_strike "call" r.dte = Except.ok long_ask ∧
      get_option_bid chain r.short_strike "call" r.dte = Except.ok short_bid ∧
      r.net_debit = (long_ask - short_bid) * 100 ∧
      r.max_profit = (r.short_strike - r.long_strike) * 100 - r.net_debit ∧
      r.max_loss = r.net_debit ∧
      r.breakeven = r.long_strike + r.net_debit / 100 := by
  unfold generate_bull_call_spread at h
  dsimp only [] at h
  split at h
  · exact absurd h (by simp)
  · rename_i dte hdte
    split at h
    · exact absurd h (by simp)
    · rename_i long_strike hlong
      split at h
      · exact absurd h (by simp)
      · rename_i short_strike hshort
        split at h
        · exact absurd h (by simp)
        · rename_i long_cost hcost
          split at h
          · exact absurd h (by simp)
          · rename_i short_credit hbid
            have hr := (Except.ok.injEq _ _).mp h
            refine ⟨long_cost, short_credit, ?_, ?_, ?_, ?_, ?_, ?_⟩ <;>
              rw [← hr] <;> simp [hcost, hbid] <;> ring

/-- Witness for C6: on the two-call chain the builder produces the spec's
Scenario 5 numbers — long 100 / short 110, net debit 400, max profit 600,
breakeven 104 — and the payoff identities hold there. -/
theorem bull_call_spread_payoff_witness :
    generate_bull_call_spread rm0 chainBCS Features.empty 100 =
      Except.ok bcsR0 ∧
    (∃ long_ask short_bid,
      get_option_cost chainBCS bcsR0.long_strike "call" bcsR0.dte =
        Except.ok long_ask ∧
      get_option_bid chainBCS bcsR0.short_strike "call" bcsR0.dte =
        Except.ok short_bid ∧
      bcsR0.net_debit = (long_ask - short_bid) * 100 ∧
      bcsR0.max_profit =
        (bcsR0.short_strike - bcsR0.long_strike) * 100 - bcsR0.net_debit ∧
      bcsR0.max_loss = bcsR0.net_debit ∧
      bcsR0.breakeven = bcsR0.long_strike + bcsR0.net_debit / 100) ∧
    bcsR0.long_strike = 100 ∧ bcsR0.short_strike = 110 ∧
    bcsR0.net_debit = 400 ∧ bcsR0.max_profit = 600 ∧ bcsR0.breakeven = 104 := by
  have h : generate_bull_call_spread rm0 chainBCS Features.empty 100 =
      Except.ok bcsR0 := by
    norm_num [generate_bull_call_spread, rm0, chainBCS, bcsR0, Features.ivRank,
      Features.adx, Features.trendRegime, Features.rsi, Features.priceVsSma,
      Features.empty, classify_trend_strength, select_optimal_dte,
      available_dtes, sortInts, insertSorted, firstArgmin,
      find_strike_by_delta, strikeCands, deltaDiff, get_option_cost,
      get_option_bid, RiskManager.calculate_position_size,
      RiskManager.max_risk_amount, pyInt, abs_of_nonneg, abs_of_nonpos]
  exact ⟨h, bull_call_spread_payoff rm0 chainBCS Features.empty 100 bcsR0 h,
    by norm_num [bcsR0], by norm_num [bcsR0], by norm_num [bcsR0],
    by norm_num [bcsR0], by norm_num [bcsR0]⟩

/-- When every chain DTE lies within `near + 14`, the far-DTE candidate list
is empty and the builders fabricate `far_dte = near + 30`. -/
theorem farDte_eq_fabricated (chain : List OptionContract) (near : ℤ)
    (hall : ∀ c ∈ chain, c.dte ≤ near + 14) :
    farDte chain near = near + 30 := by
  unfold farDte
  have hfil : (available_dtes chain).filter (fun d => near + 14 < d) = [] := by
    apply List.filter_eq_nil_iff.mpr
    intro d hd
    have hmem := mem_available_dtes.mp hd
    simp only [List.mem_map] at hmem
    obtain ⟨c, hc, rfl⟩ := hmem
    have := hall c hc
    simp only [decide_eq_true_eq, not_lt]
    exact this
  rw [hfil]
  simp [firstArgmin]

/-- A bid/ask lookup at a DTE beyond every chain row's DTE raises the
"Option not found" error. -/
theorem get_option_cost_far_error (chain : List OptionContract) (near : ℤ)
    (s : ℚ) (ty : String) (hall : ∀ c ∈ chain, c.dte ≤ near + 14) :
    get_option_cost chain s ty (near + 30) =
      Except.error (optionNotFound ty s (near + 30)) := by
  unfold get_option_cost
  have hfil : chain.filter
      (fun c => c.strike == s && c.type == ty && c.dte == near + 30) = [] := by
    apply List.filter_eq_nil_iff.mpr
    intro c hc
    have := hall c hc
    simp only [Bool.and_eq_true, beq_iff_eq, not_and]
    intro _ _
    omega
  rw [hfil]

/-- Claim C10: when all chain DTEs lie within `near_dte + 14`, the calendar
and diagonal builders fabricate `far_dte = near_dte + 30` — a DTE absent from
the chain — and the subsequent ask lookup at that DTE fails with the
"Option not found" error instead of selecting an existing expiration. -/
theorem calendar_diagonal_fabricated_far_dte (rm : RiskManager)
    (chain : List OptionContract) (features : Features) (current_price : ℚ)
    (near : ℤ) (atm near_bid : ℚ)
    (hnear : nearDte chain = some near)
    (hall : ∀ c ∈ chain, c.dte ≤ near + 14)
    (hatm : find_strike_by_delta chain 0.50 "call" near = Except.ok atm)
    (hbid : get_option_bid chain atm (calendarType features) near =
      Except.ok near_bid)
    (hdiag : ∃ c ∈ chain, c.type = diagonalType features) :
    farDte chain near = near + 30 ∧
    (near + 30) ∉ chain.map (fun c => c.dte) ∧
    generate_calendar_spread rm chain features current_price =
      Except.error (optionNotFound (calendarType features) atm (near + 30)) ∧
    (∃ long_strike,
      generate_diagonal_spread rm chain features current_price =
        Except.error
          (optionNotFound (diagonalType features) long_strike (near + 30))) := by
  have hfar : farDte chain near = near + 30 := farDte_eq_fabricated chain near hall
  refine ⟨hfar, ?_, ?_, ?_⟩
  · simp only [List.mem_map, not_exists]
    intro c hc
    have h1 := hall c hc.1
    have h2 := hc.2
    omega
  · unfold generate_calendar_spread
    rw [hnear]
    dsimp only []
    rw [hfar, hatm]
    dsimp only []
    rw [hbid]
    dsimp only []
    rw [get_option_cost_far_error chain near atm (calendarType features) hall]
  · obtain ⟨ls, hlsmem, hls⟩ := find_strike_by_delta_isOk chain
      (if features.rsi > 55 then (0.50 : ℚ) else -0.50)
      (diagonalType features) (near + 30) hdiag
    obtain ⟨ss, hssmem, hss⟩ := find_strike_by_delta_isOk chain
      (if features.rsi > 55 then (0.30 : ℚ) else -0.30)
      (diagonalType features) near hdiag
    refine ⟨ls.strike, ?_⟩
    unfold generate_diagonal_spread
    rw [hnear]
    dsimp only []
    rw [hfar, hls]
    dsimp only []
    rw [hss]
    dsimp only []
    rw [get_option_cost_far_error chain near ls.strike (diagonalType features) hall]

/-- Witness for C10: the chain with DTEs {21, 28} has `near_dte = 21`, all
DTEs within 35, so both builders fabricate `far_dte = 51` (not in the chain)
and fail with the "Option not found" error. -/
theorem calendar_diagonal_fabricated_far_dte_witness :
    nearDte chainCal = some 21 ∧
    (∀ c ∈ chainCal, c.dte ≤ 21 + 14) ∧
    farDte chainCal 21 = 51 ∧
    ((51 : ℤ) ∉ chainCal.map (fun c => c.dte)) ∧
    generate_calendar_spread rm0 chainCal Features.empty 100 =
      Except.error (optionNotFound (calendarType Features.empty) 100 51) ∧
    (∃ long_strike,
      generate_diagonal_spread rm0 chainCal Features.empty 100 =
        Except.error
          (optionNotFound (diagonalType Features.empty) long_strike 51)) := by
  have hnear : nearDte chainCal = some 21 := by
    norm_num [nearDte, chainCal, available_dtes, sortInts, insertSorted,
      firstArgmin, List.dedup_cons_of_mem, List.dedup_cons_of_not_mem,
      abs_of_nonneg, abs_of_nonpos]
  have hall : ∀ c ∈ chainCal, c.dte ≤ 21 + 14 := by
    intro c hc
    simp only [chainCal, List.mem_cons, List.not_mem_nil, or_false] at hc
    rcases hc with rfl | rfl | rfl <;> norm_num
  have hatm : find_strike_by_delta chainCal 0.50 "call" 21 = Except.ok 100 := by
    norm_num [find_strike_by_delta, strikeCands, chainCal, firstArgmin,
      deltaDiff, abs_of_nonneg, abs_of_nonpos]
  have hbid : get_option_bid chainCal 100 (calendarType Features.empty) 21 =
      Except.ok (12/5) := by
    norm_num [get_option_bid, calendarType, Features.rsi, Features.empty,
      chainCal, List.filter_cons, List.filter_nil]
    all_goals simp
    all_goals norm_num
  have hdiag : ∃ c ∈ chainCal, c.type = diagonalType Features.empty := by
    refine ⟨⟨100, "put", 21, 2.4, 2.5, -0.50⟩, by simp [chainCal], ?_⟩
    norm_num [diagonalType, Features.rsi, Features.empty]
  have h := calendar_diagonal_fabricated_far_dte rm0 chainCal Features.empty
    100 21 100 (12/5) hnear hall hatm hbid hdiag
  have h51 : (21 : ℤ) + 30 = 51 := by norm_num
  refine ⟨hnear, hall, h51 ▸ h.1, h51 ▸ h.2.1, h51 ▸ h.2.2.1, h51 ▸ h.2.2.2⟩
